import Mathlib

/-!
# Verification of the SEO scoring engine (`seo_analyzer.py`)

Shallow embedding of the rule-based scoring engine of the `SEOAnalyzer`
class of the repository.  Python dictionaries with optional keys become
structures with `Option` fields read through `Option.getD` (mirroring
`dict.get(key, default)`); the mutable instance state (`self.issues`,
`self.opportunities`, `self.strengths`, `self.scores`) becomes an explicit
`AnalyzerState` threaded through the analysis methods; Python floats are
modelled as exact rationals (`ℚ`) and Python ints as `ℤ`.  The wall-clock
timestamp attached to the result is outside the model (it is the only
non-deterministic output field).
-/

namespace SEO

/-- Round-half-to-even (bankers rounding) of a rational to the nearest integer, ties to even:
the rounding mode of the Python built-in `round`. -/
def roundHalfEven (q : ℚ) : ℤ :=
  let f : ℤ := ⌊q⌋
  let frac : ℚ := q - f
  if frac < 1/2 then f
  else if 1/2 < frac then f + 1
  else if f % 2 = 0 then f else f + 1

/-- Model of `round(total, 1)` from `calculate_overall_score`: round to one decimal
place (ties to even, as the Python `round` behaves on exact values). -/
def round1 (q : ℚ) : ℚ := (roundHalfEven (q * 10) : ℚ) / 10

/-- Rendering of a float with format spec `:.0f` (no decimals, ties to
even), used in several issue/strength messages. -/
def fmt0 (q : ℚ) : ℤ := roundHalfEven q

/-- Proposition that `sub` occurs somewhere inside `s` — used to state that a message
"mentions" a number. -/
def mentions (s sub : String) : Prop := ∃ a b, s = a ++ sub ++ b

/-- One entry of `self.issues`: a dict with keys `category`, `severity`,
`issue` and optionally `recommendation` or `details`. -/
structure Issue where
  category : String
  severity : String
  issue : String
  recommendation : Option String
  details : Option String
deriving DecidableEq, Repr

/-- An issue dict carrying a `recommendation` key (the shape used by every
rule-generated issue). -/
def mkIssue (category severity msg rec : String) : Issue :=
  { category := category, severity := severity, issue := msg,
    recommendation := some rec, details := none }

/-- Warning issue of the form "could not analyze", appended when a section input
carries an `error` key: it has a `details` field instead of a
`recommendation`. -/
def mkErrIssue (category msg details : String) : Issue :=
  { category := category, severity := "warning", issue := msg,
    recommendation := none, details := some details }

/-- Fields read from the `page_speed` section (each via `.get` with a
zero/false default, hence `Option`). -/
structure PageSpeedData where
  performance_score : Option ℚ := none
  seo_score : Option ℚ := none
  mobile_friendly : Option Bool := none
deriving DecidableEq, Repr

/-- Fields read from the `on_page_seo` section. -/
structure OnPageData where
  title_length : Option ℤ := none
  meta_description_length : Option ℤ := none
  h1_count : Option ℤ := none
  total_images : Option ℤ := none
  images_without_alt : Option ℤ := none
  word_count : Option ℤ := none
  internal_links_count : Option ℤ := none
deriving DecidableEq, Repr

/-- Fields read from the `technical_seo` section. -/
structure TechnicalData where
  is_https : Option Bool := none
  status_code : Option ℤ := none
  response_time_ms : Option ℤ := none
  has_robots_txt : Option Bool := none
  has_sitemap : Option Bool := none
  has_compression : Option Bool := none
deriving DecidableEq, Repr

/-- A section of the input record: either a dict containing an `error` key
(checked first by each analysis method) or a dict of regular fields.  A
section absent from the input altogether behaves as `fields` with every
field `none` (the code reads it as `{}`). -/
inductive SectionData (α : Type) where
  | err (details : String)
  | fields (data : α)
deriving DecidableEq, Repr

/-- The input record handed to `SEOAnalyzer.__init__`. -/
structure SEOData where
  url : Option String := none
  page_speed : SectionData PageSpeedData := .fields {}
  on_page_seo : SectionData OnPageData := .fields {}
  technical_seo : SectionData TechnicalData := .fields {}
deriving DecidableEq, Repr

/-- Model of `self.scores`: a dict whose keys are set as analysis proceeds
(`Option` = key possibly absent; `calculate_overall_score` and the result
assembly read absent keys as 0). -/
structure Scores where
  performance : Option ℚ := none
  technical_seo : Option ℚ := none
  on_page_seo : Option ℚ := none
  overall : Option ℚ := none
deriving DecidableEq, Repr

/-- The mutable instance state of an `SEOAnalyzer`. -/
structure AnalyzerState where
  issues : List Issue := []
  opportunities : List String := []
  strengths : List String := []
  scores : Scores := {}
deriving DecidableEq, Repr

/-- The state of a freshly constructed analyzer. -/
def initState : AnalyzerState := {}

/-- Mirrors `self.issues.append(i)`. -/
def addIssue (st : AnalyzerState) (i : Issue) : AnalyzerState :=
  { st with issues := st.issues ++ [i] }

/-- Mirrors `self.strengths.append(s)`. -/
def addStrength (st : AnalyzerState) (s : String) : AnalyzerState :=
  { st with strengths := st.strengths ++ [s] }

/-- Mirrors `self.opportunities.append(s)`. -/
def addOpportunity (st : AnalyzerState) (s : String) : AnalyzerState :=
  { st with opportunities := st.opportunities ++ [s] }

/-- Method `analyze_page_speed` (seo_analyzer.py lines 47-102). -/
def analyze_page_speed (d : SectionData PageSpeedData) (st : AnalyzerState) :
    AnalyzerState :=
  match d with
  | .err e =>
      addIssue st (mkErrIssue "Performance" "Could not retrieve PageSpeed data" e)
  | .fields f =>
      let perf_score := f.performance_score.getD 0
      let seo_score := f.seo_score.getD 0
      let p := fmt0 perf_score
      let s := fmt0 seo_score
      let st1 :=
        if perf_score ≥ 90 then
          addStrength st "Excellent page performance"
        else if perf_score ≥ 50 then
          addIssue st (mkIssue "Performance" "warning"
            s!"Moderate performance score: {p}/100"
            "Optimize images, minify CSS/JS, enable caching")
        else
          addIssue st (mkIssue "Performance" "critical"
            s!"Poor performance score: {p}/100"
            "Critical: Improve server response time, optimize images, reduce JavaScript")
      let st2 :=
        if seo_score ≥ 90 then
          addStrength st1 s!"Strong technical SEO score: {s}/100"
        else if seo_score < 80 then
          addIssue st1 (mkIssue "Technical SEO" "warning"
            s!"SEO score needs improvement: {s}/100"
            "Review meta tags, heading structure, and mobile-friendliness")
        else st1
      let st3 :=
        if ¬ f.mobile_friendly.getD false then
          addIssue st2 (mkIssue "Mobile" "critical"
            "Page is not mobile-friendly"
            "Add viewport meta tag and ensure responsive design")
        else st2
      { st3 with scores := { st3.scores with
          performance := some perf_score, technical_seo := some seo_score } }

/-- Title-tag block of `analyze_on_page_seo` (lines 117-141). -/
def titleRule (f : OnPageData) (st : AnalyzerState) : AnalyzerState :=
  let title_length := f.title_length.getD 0
  if title_length = 0 then
    addIssue st (mkIssue "On-Page SEO" "critical" "Missing title tag"
      "Add a descriptive title tag (50-60 characters)")
  else if title_length < 30 then
    addIssue st (mkIssue "On-Page SEO" "warning"
      s!"Title tag too short: {title_length} characters"
      "Expand title to 50-60 characters for better SEO")
  else if title_length > 60 then
    addIssue st (mkIssue "On-Page SEO" "warning"
      s!"Title tag too long: {title_length} characters"
      "Shorten title to 50-60 characters to avoid truncation")
  else
    addStrength st s!"Good title length: {title_length} characters"

/-- Meta-description block of `analyze_on_page_seo` (lines 143-167). -/
def metaRule (f : OnPageData) (st : AnalyzerState) : AnalyzerState :=
  let meta_desc_length := f.meta_description_length.getD 0
  if meta_desc_length = 0 then
    addIssue st (mkIssue "On-Page SEO" "critical" "Missing meta description"
      "Add a compelling meta description (150-160 characters)")
  else if meta_desc_length < 120 then
    addIssue st (mkIssue "On-Page SEO" "warning"
      s!"Meta description too short: {meta_desc_length} characters"
      "Expand to 150-160 characters for better CTR")
  else if meta_desc_length > 160 then
    addIssue st (mkIssue "On-Page SEO" "warning"
      s!"Meta description too long: {meta_desc_length} characters"
      "Shorten to 150-160 characters to avoid truncation")
  else
    addStrength st s!"Good meta description length: {meta_desc_length} characters"

/-- Heading-structure block of `analyze_on_page_seo` (lines 169-186). -/
def h1Rule (f : OnPageData) (st : AnalyzerState) : AnalyzerState :=
  let h1_count := f.h1_count.getD 0
  if h1_count = 0 then
    addIssue st (mkIssue "On-Page SEO" "critical" "Missing H1 heading"
      "Add exactly one H1 tag with primary keyword")
  else if h1_count > 1 then
    addIssue st (mkIssue "On-Page SEO" "warning"
      s!"Multiple H1 tags found: {h1_count}"
      "Use only one H1 tag per page")
  else
    addStrength st "Proper H1 structure"

/-- Image-analysis block of `analyze_on_page_seo` (lines 188-204).  The
percentage is computed in exact rational arithmetic; the division only
occurs under the guard `total_images > 0 ∧ images_without_alt > 0`. -/
def imageRule (f : OnPageData) (st : AnalyzerState) : AnalyzerState :=
  let total_images := f.total_images.getD 0
  let images_without_alt := f.images_without_alt.getD 0
  if total_images > 0 ∧ images_without_alt > 0 then
    let percentage : ℚ := ((images_without_alt : ℚ) / (total_images : ℚ)) * 100
    let pct := fmt0 percentage
    if percentage > 20 then
      addIssue st (mkIssue "Image Optimization" "warning"
        s!"{images_without_alt}/{total_images} images missing alt text ({pct}%)"
        "Add descriptive alt text to all images for accessibility and SEO")
    else
      addOpportunity st s!"Add alt text to {images_without_alt} remaining images"
  else if total_images > 0 then
    addStrength st "All images have alt text"
  else st

/-- Content-analysis block of `analyze_on_page_seo` (lines 206-218). -/
def wordRule (f : OnPageData) (st : AnalyzerState) : AnalyzerState :=
  let word_count := f.word_count.getD 0
  if word_count < 300 then
    addIssue st (mkIssue "Content" "warning"
      s!"Thin content: only {word_count} words"
      "Aim for at least 1000 words for better ranking potential")
  else if word_count > 1500 then
    addStrength st s!"Comprehensive content: {word_count} words"
  else
    addOpportunity st s!"Consider expanding content (current: {word_count} words)"

/-- Links-analysis block of `analyze_on_page_seo` (lines 220-223). -/
def linksRule (f : OnPageData) (st : AnalyzerState) : AnalyzerState :=
  let internal_links := f.internal_links_count.getD 0
  if internal_links < 3 then
    addOpportunity st "Add more internal links to improve site structure"
  else st

/-- On-page score computation of `analyze_on_page_seo` (lines 226-233):
start at 100 and subtract fixed penalties.  `0.2` denotes the Python float
literal, modelled as the exact rational 1/5. -/
def onPageScore (f : OnPageData) : ℤ :=
  let title_length := f.title_length.getD 0
  let meta_desc_length := f.meta_description_length.getD 0
  let h1_count := f.h1_count.getD 0
  let total_images := f.total_images.getD 0
  let images_without_alt := f.images_without_alt.getD 0
  let word_count := f.word_count.getD 0
  let score : ℤ := 100
  let score := if title_length = 0 then score - 20
    else if title_length < 30 ∨ title_length > 60 then score - 10 else score
  let score := if meta_desc_length = 0 then score - 20
    else if meta_desc_length < 120 ∨ meta_desc_length > 160 then score - 10 else score
  let score := if h1_count ≠ 1 then score - 15 else score
  let score := if (images_without_alt : ℚ) > (total_images : ℚ) * (0.2 : ℚ)
    then score - 10 else score
  let score := if word_count < 300 then score - 15 else score
  score

/-- Method `analyze_on_page_seo` (seo_analyzer.py lines 104-235): the error
check, the six rule blocks in order, then the assignment of
`max(0, score)` to the `on_page_seo` entry of `self.scores`. -/
def analyze_on_page_seo (d : SectionData OnPageData) (st : AnalyzerState) :
    AnalyzerState :=
  match d with
  | .err e =>
      addIssue st (mkErrIssue "On-Page SEO" "Could not analyze on-page elements" e)
  | .fields f =>
      let st1 := titleRule f st
      let st2 := metaRule f st1
      let st3 := h1Rule f st2
      let st4 := imageRule f st3
      let st5 := wordRule f st4
      let st6 := linksRule f st5
      { st6 with scores := { st6.scores with
          on_page_seo := some ((max 0 (onPageScore f) : ℤ) : ℚ) } }

/-- Method `analyze_technical_seo` (seo_analyzer.py lines 237-296).  It appends
issues, strengths and opportunities but writes no entry of `self.scores`. -/
def analyze_technical_seo (d : SectionData TechnicalData) (st : AnalyzerState) :
    AnalyzerState :=
  match d with
  | .err e =>
      addIssue st (mkErrIssue "Technical SEO" "Could not analyze technical aspects" e)
  | .fields f =>
      let status_code := f.status_code.getD 0
      let response_time := f.response_time_ms.getD 0
      let st1 :=
        if ¬ f.is_https.getD false then
          addIssue st (mkIssue "Security" "critical" "Site not using HTTPS"
            "Implement SSL certificate for security and SEO")
        else addStrength st "Secure HTTPS connection"
      let st2 :=
        if status_code ≠ 200 then
          addIssue st1 (mkIssue "Technical SEO" "critical"
            s!"Unexpected status code: {status_code}"
            "Ensure page returns 200 OK status")
        else st1
      let st3 :=
        if response_time > 2000 then
          addIssue st2 (mkIssue "Performance" "warning"
            s!"Slow response time: {response_time}ms"
            "Optimize server performance, use CDN, enable caching")
        else if response_time < 500 then
          addStrength st2 s!"Fast response time: {response_time}ms"
        else st2
      let st4 :=
        if ¬ f.has_robots_txt.getD false then
          addOpportunity st3 "Add robots.txt file to guide search engine crawlers"
        else addStrength st3 "robots.txt file present"
      let st5 :=
        if ¬ f.has_sitemap.getD false then
          addOpportunity st4 "Add XML sitemap for better indexing"
        else addStrength st4 "XML sitemap present"
      if ¬ f.has_compression.getD false then
        addOpportunity st5 "Enable GZIP/Brotli compression to reduce page size"
      else st5

/-- Method `calculate_overall_score` (seo_analyzer.py lines 298-309): weighted
sum of the category scores read with default 0, rounded to one decimal.
No clamping of any term is performed. -/
def calculate_overall_score (st : AnalyzerState) : AnalyzerState :=
  let total := st.scores.performance.getD 0 * (0.3 : ℚ)
    + st.scores.technical_seo.getD 0 * (0.3 : ℚ)
    + st.scores.on_page_seo.getD 0 * (0.4 : ℚ)
  { st with scores := { st.scores with overall := some (round1 total) } }

/-- The analysis record returned by `analyze_all` (lines 32-43), minus the
wall-clock `timestamp` (outside the model) and the `summary` string (pure
formatting of the other fields). -/
structure Analysis where
  url : String
  overall_score : ℚ
  category_scores : Scores
  critical_issues : List Issue
  warnings : List Issue
  all_issues : List Issue
  opportunities : List String
  strengths : List String
deriving DecidableEq, Repr

/-- Method `analyze_all` (seo_analyzer.py lines 23-45): run the three section
analyses and the aggregation on a fresh state, then assemble the result. -/
def analyze_all (d : SEOData) : Analysis :=
  let st := analyze_page_speed d.page_speed initState
  let st := analyze_on_page_seo d.on_page_seo st
  let st := analyze_technical_seo d.technical_seo st
  let st := calculate_overall_score st
  { url := d.url.getD "Unknown"
    overall_score := st.scores.overall.getD 0
    category_scores := st.scores
    critical_issues := st.issues.filter (fun i => i.severity == "critical")
    warnings := st.issues.filter (fun i => i.severity == "warning")
    all_issues := st.issues
    opportunities := st.opportunities
    strengths := st.strengths }

/-- Value of the `performance` category score after a full run: set by the
page-speed section when it did not error, absent otherwise. -/
def categoryPerformance (d : SEOData) : Option ℚ :=
  match d.page_speed with
  | .err _ => none
  | .fields f => some (f.performance_score.getD 0)

/-- Value of the `technical_seo` category score after a full run: sourced
from the page-speed section (not the technical section). -/
def categoryTechnicalSeo (d : SEOData) : Option ℚ :=
  match d.page_speed with
  | .err _ => none
  | .fields f => some (f.seo_score.getD 0)

/-- Value of the `on_page_seo` category score after a full run. -/
def categoryOnPageSeo (d : SEOData) : Option ℚ :=
  match d.on_page_seo with
  | .err _ => none
  | .fields f => some ((max 0 (onPageScore f) : ℤ) : ℚ)

/-- The weighted total that `calculate_overall_score` rounds. -/
def overallTotal (d : SEOData) : ℚ :=
  (categoryPerformance d).getD 0 * (0.3 : ℚ)
    + (categoryTechnicalSeo d).getD 0 * (0.3 : ℚ)
    + (categoryOnPageSeo d).getD 0 * (0.4 : ℚ)

/-- Penalty for the title condition: missing 20, out of range 10. -/
def titlePenalty (t : ℤ) : ℤ :=
  if t = 0 then 20 else if t < 30 ∨ t > 60 then 10 else 0

/-- Penalty for the meta-description condition: missing 20, out of range 10. -/
def metaPenalty (m : ℤ) : ℤ :=
  if m = 0 then 20 else if m < 120 ∨ m > 160 then 10 else 0

/-- Penalty for the heading condition: 15 unless exactly one H1. -/
def h1Penalty (h : ℤ) : ℤ := if h ≠ 1 then 15 else 0

/-- Penalty for missing alt text: 10 when more than 20 percent of the
images lack alt text (the condition of seo_analyzer.py line 232). -/
def altPenalty (ti iwa : ℤ) : ℤ :=
  if (iwa : ℚ) > (ti : ℚ) * (0.2 : ℚ) then 10 else 0

/-- Penalty for thin content: 15 below 300 words. -/
def wordPenalty (w : ℤ) : ℤ := if w < 300 then 15 else 0

/-- Sum of the five independent fixed penalties of the on-page score. -/
def onPagePenalties (f : OnPageData) : ℤ :=
  titlePenalty (f.title_length.getD 0) + metaPenalty (f.meta_description_length.getD 0)
    + h1Penalty (f.h1_count.getD 0)
    + altPenalty (f.total_images.getD 0) (f.images_without_alt.getD 0)
    + wordPenalty (f.word_count.getD 0)

/-- Replace every absent field of a page-speed section by the default the
code would read for it. -/
def fillPageSpeed (f : PageSpeedData) : PageSpeedData :=
  { performance_score := some (f.performance_score.getD 0),
    seo_score := some (f.seo_score.getD 0),
    mobile_friendly := some (f.mobile_friendly.getD false) }

/-- Replace every absent field of an on-page section by its default. -/
def fillOnPage (f : OnPageData) : OnPageData :=
  { title_length := some (f.title_length.getD 0),
    meta_description_length := some (f.meta_description_length.getD 0),
    h1_count := some (f.h1_count.getD 0),
    total_images := some (f.total_images.getD 0),
    images_without_alt := some (f.images_without_alt.getD 0),
    word_count := some (f.word_count.getD 0),
    internal_links_count := some (f.internal_links_count.getD 0) }

/-- Replace every absent field of a technical section by its default. -/
def fillTechnical (f : TechnicalData) : TechnicalData :=
  { is_https := some (f.is_https.getD false),
    status_code := some (f.status_code.getD 0),
    response_time_ms := some (f.response_time_ms.getD 0),
    has_robots_txt := some (f.has_robots_txt.getD false),
    has_sitemap := some (f.has_sitemap.getD false),
    has_compression := some (f.has_compression.getD false) }

/-- Apply a field-filling function underneath a section wrapper. -/
def fillSection {α : Type} (fill : α → α) : SectionData α → SectionData α
  | .err e => .err e
  | .fields f => .fields (fill f)

/-- Replace every absent field of an input record by its default. -/
def fillData (d : SEOData) : SEOData :=
  { url := some (d.url.getD "Unknown"),
    page_speed := fillSection fillPageSpeed d.page_speed,
    on_page_seo := fillSection fillOnPage d.on_page_seo,
    technical_seo := fillSection fillTechnical d.technical_seo }

/-- Page-speed section of the end-to-end example input of the spec
(section 8). -/
def ex2ps : PageSpeedData :=
  { performance_score := some 85, seo_score := some 90, mobile_friendly := some true }

/-- On-page section of the end-to-end example input. -/
def ex2op : OnPageData :=
  { title_length := some 55, meta_description_length := some 150, h1_count := some 1,
    total_images := some 5, images_without_alt := some 0, word_count := some 1200,
    internal_links_count := some 5 }

/-- Technical section of the end-to-end example input. -/
def ex2tech : TechnicalData :=
  { is_https := some true, status_code := some 200, response_time_ms := some 450,
    has_robots_txt := some true, has_sitemap := some true, has_compression := some true }

/-- The end-to-end example input of the spec (section 8). -/
def ex2 : SEOData :=
  { url := some "https://example.com", page_speed := .fields ex2ps,
    on_page_seo := .fields ex2op, technical_seo := .fields ex2tech }

/-- An input whose page-speed scores lie outside the documented 0-100
range; the analyzer performs no validation or clamping on them. -/
def cex1 : SEOData :=
  { url := none,
    page_speed := .fields { performance_score := some 400, seo_score := some 400,
                            mobile_friendly := some true },
    on_page_seo := .err "scrape failed",
    technical_seo := .err "request failed" }

/-- Clamp of a value to the interval [0,100].  Modelled from the spec: the
invariant sentence says each category term is "clamped to [0,100] before
weighting"; no such clamp exists in `calculate_overall_score`, so this
definition exists only to compare the spec formula against the code. -/
def clampSpec (q : ℚ) : ℚ := min 100 (max 0 q)

/-- Saying that the page-speed scores of an input lie in the documented
0-100 range (vacuous when the section errored). -/
def pageSpeedInRange (d : SEOData) : Prop :=
  match d.page_speed with
  | .err _ => True
  | .fields f => 0 ≤ f.performance_score.getD 0 ∧ f.performance_score.getD 0 ≤ 100
      ∧ 0 ≤ f.seo_score.getD 0 ∧ f.seo_score.getD 0 ≤ 100

/-- On-page section with a 45-character title and nothing else, for the
title-bucket witness. -/
def c5f : OnPageData := { title_length := some 45 }

/-- On-page section with 10 images of which 3 lack alt text (30 percent
missing). -/
def c6f : OnPageData := { total_images := some 10, images_without_alt := some 3 }

/-- On-page section with 10 images of which 1 lacks alt text (10 percent
missing). -/
def c6g : OnPageData := { total_images := some 10, images_without_alt := some 1 }

/-- On-page section reporting zero images but a positive count of images
without alt text (an inconsistent but accepted input). -/
def c10f : OnPageData := { total_images := some 0, images_without_alt := some 2 }

/-- Input record wrapping `c10f`. -/
def c10d : SEOData := { on_page_seo := .fields c10f }

/-- Input record whose sections are present but carry no fields at all. -/
def dMissing : SEOData :=
  { url := none, page_speed := .fields {}, on_page_seo := .fields {},
    technical_seo := .fields {} }

/-! ## Helper lemmas -/

@[simp] theorem addIssue_issues (st : AnalyzerState) (i : Issue) :
    (addIssue st i).issues = st.issues ++ [i] := rfl

@[simp] theorem addIssue_strengths (st : AnalyzerState) (i : Issue) :
    (addIssue st i).strengths = st.strengths := rfl

@[simp] theorem addIssue_opportunities (st : AnalyzerState) (i : Issue) :
    (addIssue st i).opportunities = st.opportunities := rfl

@[simp] theorem addIssue_scores (st : AnalyzerState) (i : Issue) :
    (addIssue st i).scores = st.scores := rfl

@[simp] theorem addStrength_issues (st : AnalyzerState) (s : String) :
    (addStrength st s).issues = st.issues := rfl

@[simp] theorem addStrength_strengths (st : AnalyzerState) (s : String) :
    (addStrength st s).strengths = st.strengths ++ [s] := rfl

@[simp] theorem addStrength_opportunities (st : AnalyzerState) (s : String) :
    (addStrength st s).opportunities = st.opportunities := rfl

@[simp] theorem addStrength_scores (st : AnalyzerState) (s : String) :
    (addStrength st s).scores = st.scores := rfl

@[simp] theorem addOpportunity_issues (st : AnalyzerState) (s : String) :
    (addOpportunity st s).issues = st.issues := rfl

@[simp] theorem addOpportunity_strengths (st : AnalyzerState) (s : String) :
    (addOpportunity st s).strengths = st.strengths := rfl

@[simp] theorem addOpportunity_opportunities (st : AnalyzerState) (s : String) :
    (addOpportunity st s).opportunities = st.opportunities ++ [s] := rfl

@[simp] theorem addOpportunity_scores (st : AnalyzerState) (s : String) :
    (addOpportunity st s).scores = st.scores := rfl

@[simp] theorem titleRule_scores (f : OnPageData) (st : AnalyzerState) :
    (titleRule f st).scores = st.scores := by
  simp only [titleRule]; split_ifs <;> simp

@[simp] theorem metaRule_scores (f : OnPageData) (st : AnalyzerState) :
    (metaRule f st).scores = st.scores := by
  simp only [metaRule]; split_ifs <;> simp

@[simp] theorem h1Rule_scores (f : OnPageData) (st : AnalyzerState) :
    (h1Rule f st).scores = st.scores := by
  simp only [h1Rule]; split_ifs <;> simp

@[simp] theorem imageRule_scores (f : OnPageData) (st : AnalyzerState) :
    (imageRule f st).scores = st.scores := by
  simp only [imageRule]; split_ifs <;> simp

@[simp] theorem wordRule_scores (f : OnPageData) (st : AnalyzerState) :
    (wordRule f st).scores = st.scores := by
  simp only [wordRule]; split_ifs <;> simp

@[simp] theorem linksRule_scores (f : OnPageData) (st : AnalyzerState) :
    (linksRule f st).scores = st.scores := by
  simp only [linksRule]; split_ifs <;> simp

theorem analyze_page_speed_err (e : String) (st : AnalyzerState) :
    analyze_page_speed (.err e) st
      = addIssue st (mkErrIssue "Performance" "Could not retrieve PageSpeed data" e) := rfl

theorem analyze_on_page_seo_err (e : String) (st : AnalyzerState) :
    analyze_on_page_seo (.err e) st
      = addIssue st (mkErrIssue "On-Page SEO" "Could not analyze on-page elements" e) := rfl

theorem analyze_technical_seo_err (e : String) (st : AnalyzerState) :
    analyze_technical_seo (.err e) st
      = addIssue st (mkErrIssue "Technical SEO" "Could not analyze technical aspects" e) := rfl

theorem analyze_page_speed_fields_scores (f : PageSpeedData) (st : AnalyzerState) :
    (analyze_page_speed (.fields f) st).scores
      = { st.scores with performance := some (f.performance_score.getD 0),
                         technical_seo := some (f.seo_score.getD 0) } := by
  simp only [analyze_page_speed]; split_ifs <;> simp

theorem analyze_on_page_seo_fields_scores (f : OnPageData) (st : AnalyzerState) :
    (analyze_on_page_seo (.fields f) st).scores
      = { st.scores with on_page_seo := some ((max 0 (onPageScore f) : ℤ) : ℚ) } := by
  simp only [analyze_on_page_seo]; simp

set_option maxHeartbeats 1000000 in
theorem analyze_technical_seo_scores (d : SectionData TechnicalData) (st : AnalyzerState) :
    (analyze_technical_seo d st).scores = st.scores := by
  cases d with
  | err e => rfl
  | fields f => simp only [analyze_technical_seo]; split_ifs <;> rfl

theorem calculate_overall_score_scores (st : AnalyzerState) :
    (calculate_overall_score st).scores
      = { st.scores with overall := some (round1 (st.scores.performance.getD 0 * (0.3 : ℚ)
          + st.scores.technical_seo.getD 0 * (0.3 : ℚ)
          + st.scores.on_page_seo.getD 0 * (0.4 : ℚ))) } := rfl

theorem scores_after_sections (d : SEOData) :
    (analyze_on_page_seo d.on_page_seo (analyze_page_speed d.page_speed initState)).scores
      = { performance := categoryPerformance d, technical_seo := categoryTechnicalSeo d,
          on_page_seo := categoryOnPageSeo d, overall := none } := by
  cases hps : d.page_speed with
  | err e =>
    cases hop : d.on_page_seo with
    | err e2 =>
      rw [analyze_on_page_seo_err, analyze_page_speed_err]
      simp [categoryPerformance, categoryTechnicalSeo, categoryOnPageSeo, hps, hop, initState]
    | fields f =>
      rw [analyze_on_page_seo_fields_scores, analyze_page_speed_err]
      simp [categoryPerformance, categoryTechnicalSeo, categoryOnPageSeo, hps, hop, initState]
  | fields g =>
    cases hop : d.on_page_seo with
    | err e2 =>
      rw [analyze_on_page_seo_err]
      simp only [addIssue_scores]
      rw [analyze_page_speed_fields_scores]
      simp [categoryPerformance, categoryTechnicalSeo, categoryOnPageSeo, hps, hop, initState]
    | fields f =>
      rw [analyze_on_page_seo_fields_scores, analyze_page_speed_fields_scores]
      simp [categoryPerformance, categoryTechnicalSeo, categoryOnPageSeo, hps, hop, initState]

theorem analyze_all_category_scores (d : SEOData) :
    (analyze_all d).category_scores
      = { performance := categoryPerformance d, technical_seo := categoryTechnicalSeo d,
          on_page_seo := categoryOnPageSeo d, overall := some (round1 (overallTotal d)) } := by
  have h : (analyze_all d).category_scores
      = (calculate_overall_score (analyze_technical_seo d.technical_seo
          (analyze_on_page_seo d.on_page_seo
            (analyze_page_speed d.page_speed initState)))).scores := rfl
  rw [h, calculate_overall_score_scores, analyze_technical_seo_scores, scores_after_sections]
  rfl

theorem analyze_all_overall_score (d : SEOData) :
    (analyze_all d).overall_score = round1 (overallTotal d) := by
  have h : (analyze_all d).overall_score = ((analyze_all d).category_scores.overall).getD 0 := rfl
  rw [h, analyze_all_category_scores]
  rfl

theorem le_roundHalfEven (z : ℤ) (q : ℚ) (h : (z : ℚ) ≤ q) : z ≤ roundHalfEven q := by
  have hf : z ≤ ⌊q⌋ := Int.le_floor.mpr h
  simp only [roundHalfEven]
  split_ifs <;> omega

theorem roundHalfEven_le (q : ℚ) (z : ℤ) (h : q ≤ (z : ℚ)) : roundHalfEven q ≤ z := by
  have hf : ⌊q⌋ ≤ z := by simpa using Int.floor_mono h
  have hfq : (⌊q⌋ : ℚ) ≤ q := Int.floor_le q
  simp only [roundHalfEven]
  split_ifs with h1 h2 h3
  · exact hf
  · have hne : ⌊q⌋ ≠ z := by
      intro he
      have hq : q ≤ (⌊q⌋ : ℚ) := by rw [he]; exact h
      linarith
    omega
  · exact hf
  · have h4 : (1 : ℚ)/2 ≤ q - ⌊q⌋ := not_lt.mp h1
    have hne : ⌊q⌋ ≠ z := by
      intro he
      have hq : q ≤ (⌊q⌋ : ℚ) := by rw [he]; exact h
      linarith
    omega

theorem round1_nonneg (q : ℚ) (h : 0 ≤ q) : 0 ≤ round1 q := by
  have h0 : (0 : ℤ) ≤ roundHalfEven (q * 10) := by
    refine le_roundHalfEven 0 (q * 10) ?_
    push_cast
    linarith
  simp only [round1]
  apply div_nonneg _ (by norm_num)
  exact_mod_cast h0

theorem round1_le_100 (q : ℚ) (h : q ≤ 100) : round1 q ≤ 100 := by
  have h0 : roundHalfEven (q * 10) ≤ 1000 := by
    refine roundHalfEven_le (q * 10) 1000 ?_
    push_cast
    linarith
  simp only [round1]
  rw [div_le_iff (by norm_num : (0 : ℚ) < 10)]
  have h1 : ((roundHalfEven (q * 10) : ℤ) : ℚ) ≤ ((1000 : ℤ) : ℚ) := by exact_mod_cast h0
  push_cast at h1
  linarith

set_option maxHeartbeats 1000000 in
theorem onPageScore_eq_penalties (f : OnPageData) :
    onPageScore f = 100 - onPagePenalties f := by
  simp only [onPageScore, onPagePenalties, titlePenalty, metaPenalty, h1Penalty,
    altPenalty, wordPenalty]
  split_ifs <;> omega

set_option maxHeartbeats 1000000 in
theorem onPagePenalties_nonneg (f : OnPageData) : 0 ≤ onPagePenalties f := by
  simp only [onPagePenalties, titlePenalty, metaPenalty, h1Penalty, altPenalty, wordPenalty]
  split_ifs <;> omega

theorem onPageScore_le_100 (f : OnPageData) : onPageScore f ≤ 100 := by
  have h1 := onPageScore_eq_penalties f
  have h2 := onPagePenalties_nonneg f
  omega

theorem percentage_gt_20_iff (ti iwa : ℤ) (h : 0 < ti) :
    ((iwa : ℚ) / (ti : ℚ)) * 100 > 20 ↔ ti < 5 * iwa := by
  have hti : (0 : ℚ) < (ti : ℚ) := by exact_mod_cast h
  rw [gt_iff_lt, div_mul_eq_mul_div, lt_div_iff hti]
  constructor
  · intro h2
    have h3 : ((20 * ti : ℤ) : ℚ) < ((iwa * 100 : ℤ) : ℚ) := by push_cast; linarith
    have h4 : (20 * ti : ℤ) < iwa * 100 := by exact_mod_cast h3
    omega
  · intro h2
    have h4 : (20 * ti : ℤ) < iwa * 100 := by omega
    have h3 : ((20 * ti : ℤ) : ℚ) < ((iwa * 100 : ℤ) : ℚ) := by exact_mod_cast h4
    push_cast at h3
    linarith

theorem altPenalty_cond_iff (ti iwa : ℤ) :
    ((iwa : ℚ) > (ti : ℚ) * (0.2 : ℚ)) ↔ ti < 5 * iwa := by
  have h02 : (0.2 : ℚ) = 1/5 := by norm_num
  rw [gt_iff_lt, h02]
  constructor
  · intro h2
    have h3 : ((ti : ℤ) : ℚ) < ((5 * iwa : ℤ) : ℚ) := by push_cast; linarith
    exact_mod_cast h3
  · intro h2
    have h3 : ((ti : ℤ) : ℚ) < ((5 * iwa : ℤ) : ℚ) := by exact_mod_cast h2
    push_cast at h3
    linarith

theorem analyze_page_speed_fill (f : PageSpeedData) (st : AnalyzerState) :
    analyze_page_speed (.fields (fillPageSpeed f)) st = analyze_page_speed (.fields f) st := by
  simp [analyze_page_speed, fillPageSpeed]

theorem titleRule_fill (f : OnPageData) (st : AnalyzerState) :
    titleRule (fillOnPage f) st = titleRule f st := by
  simp [titleRule, fillOnPage]

theorem metaRule_fill (f : OnPageData) (st : AnalyzerState) :
    metaRule (fillOnPage f) st = metaRule f st := by
  simp [metaRule, fillOnPage]

theorem h1Rule_fill (f : OnPageData) (st : AnalyzerState) :
    h1Rule (fillOnPage f) st = h1Rule f st := by
  simp [h1Rule, fillOnPage]

theorem imageRule_fill (f : OnPageData) (st : AnalyzerState) :
    imageRule (fillOnPage f) st = imageRule f st := by
  simp [imageRule, fillOnPage]

theorem wordRule_fill (f : OnPageData) (st : AnalyzerState) :
    wordRule (fillOnPage f) st = wordRule f st := by
  simp [wordRule, fillOnPage]

theorem linksRule_fill (f : OnPageData) (st : AnalyzerState) :
    linksRule (fillOnPage f) st = linksRule f st := by
  simp [linksRule, fillOnPage]

theorem onPageScore_fill (f : OnPageData) : onPageScore (fillOnPage f) = onPageScore f := by
  simp [onPageScore, fillOnPage]

theorem analyze_on_page_seo_fill (f : OnPageData) (st : AnalyzerState) :
    analyze_on_page_seo (.fields (fillOnPage f)) st = analyze_on_page_seo (.fields f) st := by
  simp only [analyze_on_page_seo]
  rw [titleRule_fill, metaRule_fill, h1Rule_fill, imageRule_fill, wordRule_fill,
    linksRule_fill, onPageScore_fill]

set_option maxHeartbeats 1000000 in
theorem analyze_technical_seo_fill (f : TechnicalData) (st : AnalyzerState) :
    analyze_technical_seo (.fields (fillTechnical f)) st
      = analyze_technical_seo (.fields f) st := by
  simp [analyze_technical_seo, fillTechnical]

theorem analyze_all_fill (d : SEOData) : analyze_all (fillData d) = analyze_all d := by
  obtain ⟨u, ps, op, te⟩ := d
  cases ps <;> cases op <;> cases te <;>
    simp [analyze_all, fillData, fillSection, analyze_page_speed_fill,
      analyze_on_page_seo_fill, analyze_technical_seo_fill]

/-! ## The claims -/

unseal Rat.add Rat.mul Rat.sub Rat.inv Rat.ofScientific in
/-- Counterexample for C1: the claim asserts each category term is
clamped to [0,100] before weighting and that the overall score always
lies in [0,100].  At `cex1` (page-speed scores 400, both other sections
errored) the code computes `overall = round(0.3*400 + 0.3*400 + 0.4*0, 1)
= 240.0`: it differs from the clamped formula (which gives 60.0) and
exceeds 100, so the claim as stated is false. -/
theorem overall_clamp_claim_false :
    ¬ ((analyze_all cex1).overall_score
        = round1 (clampSpec ((analyze_all cex1).category_scores.performance.getD 0) * (0.3 : ℚ)
            + clampSpec ((analyze_all cex1).category_scores.technical_seo.getD 0) * (0.3 : ℚ)
            + clampSpec ((analyze_all cex1).category_scores.on_page_seo.getD 0) * (0.4 : ℚ))
      ∧ (analyze_all cex1).overall_score ≤ 100) := by decide

/-- C1 (amended): for every input record, the overall score equals
`round(0.3*performance + 0.3*technicalSeo + 0.4*onPageSeo, 1)` computed
on the raw category scores (a category reads as 0 when its section
errored or set no score) with no clamping, and the overall score lies in
[0,100] whenever the page-speed scores lie in their documented 0-100
range. -/
theorem overall_weighted_formula (d : SEOData) :
    (analyze_all d).overall_score
      = round1 ((analyze_all d).category_scores.performance.getD 0 * (0.3 : ℚ)
          + (analyze_all d).category_scores.technical_seo.getD 0 * (0.3 : ℚ)
          + (analyze_all d).category_scores.on_page_seo.getD 0 * (0.4 : ℚ))
    ∧ (pageSpeedInRange d →
        0 ≤ (analyze_all d).overall_score ∧ (analyze_all d).overall_score ≤ 100) := by
  have hov := analyze_all_overall_score d
  constructor
  · rw [hov, analyze_all_category_scores]
    rfl
  · intro h
    have hp : 0 ≤ (categoryPerformance d).getD 0 ∧ (categoryPerformance d).getD 0 ≤ 100 := by
      unfold pageSpeedInRange at h
      cases hps : d.page_speed with
      | err e => simp [categoryPerformance, hps]
      | fields f =>
        rw [hps] at h
        simp [categoryPerformance, hps]
        exact ⟨h.1, h.2.1⟩
    have ht : 0 ≤ (categoryTechnicalSeo d).getD 0 ∧ (categoryTechnicalSeo d).getD 0 ≤ 100 := by
      unfold pageSpeedInRange at h
      cases hps : d.page_speed with
      | err e => simp [categoryTechnicalSeo, hps]
      | fields f =>
        rw [hps] at h
        simp [categoryTechnicalSeo, hps]
        exact ⟨h.2.2.1, h.2.2.2⟩
    have ho : 0 ≤ (categoryOnPageSeo d).getD 0 ∧ (categoryOnPageSeo d).getD 0 ≤ 100 := by
      cases hop : d.on_page_seo with
      | err e => simp [categoryOnPageSeo, hop]
      | fields f =>
        simp only [categoryOnPageSeo, hop, Option.getD_some]
        have h1 : (0 : ℤ) ≤ max 0 (onPageScore f) := le_max_left 0 _
        have h2 : max 0 (onPageScore f) ≤ 100 := max_le (by norm_num) (onPageScore_le_100 f)
        constructor
        · exact_mod_cast h1
        · exact_mod_cast h2
    have htot1 : 0 ≤ overallTotal d := by
      unfold overallTotal
      linarith [hp.1, ht.1, ho.1]
    have htot2 : overallTotal d ≤ 100 := by
      unfold overallTotal
      linarith [hp.2, ht.2, ho.2]
    rw [hov]
    exact ⟨round1_nonneg _ htot1, round1_le_100 _ htot2⟩

/-- Witness for C1 at the end-to-end example input, whose page-speed
scores 85 and 90 satisfy the range hypothesis. -/
theorem overall_weighted_formula_witness :
    pageSpeedInRange ex2
    ∧ 0 ≤ (analyze_all ex2).overall_score ∧ (analyze_all ex2).overall_score ≤ 100 := by
  have h : pageSpeedInRange ex2 := by norm_num [pageSpeedInRange, ex2, ex2ps]
  exact ⟨h, (overall_weighted_formula ex2).2 h⟩

unseal Rat.add Rat.mul Rat.sub Rat.inv Rat.ofScientific in
/-- Counterexample for C2: on the end-to-end example input the overall
score is 92.5 (the weighted sum 0.3*85 + 0.3*90 + 0.4*100, not the 91.5
the claim states) and the warnings list is not empty (performance 85
triggers the moderate-performance warning). -/
theorem end_to_end_example_claim_false :
    ¬ ((analyze_all ex2).overall_score = (91.5 : ℚ) ∧ (analyze_all ex2).warnings = []) := by
  decide

unseal Rat.add Rat.mul Rat.sub Rat.inv Rat.ofScientific in
/-- C2 (amended): on the end-to-end example input the category scores
are performance 85, technical SEO 90, on-page 100, the overall score is
92.5, there are zero critical issues and exactly one warning (the
moderate performance score), and the strengths are exactly the nine
listed entries (HTTPS, fast response, good title, good meta length,
proper H1, all images with alt text, robots.txt, sitemap, and the strong
technical SEO score). -/
theorem end_to_end_example :
    (analyze_all ex2).category_scores.performance = some 85
    ∧ (analyze_all ex2).category_scores.technical_seo = some 90
    ∧ (analyze_all ex2).category_scores.on_page_seo = some 100
    ∧ (analyze_all ex2).overall_score = (92.5 : ℚ)
    ∧ (analyze_all ex2).critical_issues = []
    ∧ (analyze_all ex2).warnings = [mkIssue "Performance" "warning"
        "Moderate performance score: 85/100" "Optimize images, minify CSS/JS, enable caching"]
    ∧ (analyze_all ex2).strengths = ["Strong technical SEO score: 90/100",
        "Good title length: 55 characters", "Good meta description length: 150 characters",
        "Proper H1 structure", "All images have alt text", "Secure HTTPS connection",
        "Fast response time: 450ms", "robots.txt file present", "XML sitemap present"] := by
  decide

/-- C3 (confirmed): when the page-speed section carries no error, its
evaluation sets the performance category score to the input
`performance_score` and the technical-SEO category score to the input
`seo_score` (both at the section level and in the full run), while the
technical-section evaluation never touches any category score. -/
theorem pagespeed_sets_category_scores (f : PageSpeedData) (st : AnalyzerState)
    (d : SectionData TechnicalData) (rec : SEOData) :
    ((analyze_page_speed (.fields f) st).scores.performance = some (f.performance_score.getD 0)
      ∧ (analyze_page_speed (.fields f) st).scores.technical_seo = some (f.seo_score.getD 0))
    ∧ (analyze_technical_seo d st).scores = st.scores
    ∧ (rec.page_speed = .fields f →
        (analyze_all rec).category_scores.performance = some (f.performance_score.getD 0)
        ∧ (analyze_all rec).category_scores.technical_seo = some (f.seo_score.getD 0)) := by
  refine ⟨⟨?_, ?_⟩, analyze_technical_seo_scores d st, ?_⟩
  · rw [analyze_page_speed_fields_scores]
  · rw [analyze_page_speed_fields_scores]
  · intro h
    rw [analyze_all_category_scores]
    constructor
    · simp [categoryPerformance, h]
    · simp [categoryTechnicalSeo, h]

/-- Witness for C3 at the end-to-end example input: the page-speed
section sets performance 85 and technical SEO 90. -/
theorem pagespeed_sets_category_scores_witness :
    ex2.page_speed = .fields ex2ps
    ∧ (analyze_all ex2).category_scores.performance = some 85
    ∧ (analyze_all ex2).category_scores.technical_seo = some 90 := by
  have h := (pagespeed_sets_category_scores ex2ps initState (.err "e") ex2).2.2 rfl
  exact ⟨rfl, h.1, h.2⟩

/-- C4 (confirmed): when the on-page section carries no error, the
on-page category score equals 100 minus the sum of the five independent
fixed penalties (title missing 20 or out of range 10, meta missing 20 or
out of range 10, H1 count not one 15, more than 20 percent of images
without alt text 10, word count below 300 words 15), clamped at a floor
of 0, and this value always lies in [0,100]. -/
theorem onpage_score_penalty_decomposition (d : SEOData) (f : OnPageData)
    (h : d.on_page_seo = .fields f) :
    (analyze_all d).category_scores.on_page_seo
      = some ((max 0 (100 - onPagePenalties f) : ℤ) : ℚ)
    ∧ (0 : ℤ) ≤ max 0 (100 - onPagePenalties f)
    ∧ max 0 (100 - onPagePenalties f) ≤ 100 := by
  refine ⟨?_, le_max_left _ _, ?_⟩
  · rw [analyze_all_category_scores]
    simp [categoryOnPageSeo, h, onPageScore_eq_penalties]
  · have h2 := onPagePenalties_nonneg f
    exact max_le (by norm_num) (by omega)

unseal Rat.add Rat.mul Rat.sub Rat.inv Rat.ofScientific in
/-- Witness for C4 at the end-to-end example input: the on-page section
incurs no penalty and scores 100. -/
theorem onpage_score_penalty_decomposition_witness :
    ex2.on_page_seo = .fields ex2op
    ∧ (analyze_all ex2).category_scores.on_page_seo
        = some ((max 0 (100 - onPagePenalties ex2op) : ℤ) : ℚ)
    ∧ onPagePenalties ex2op = 0 := by
  refine ⟨rfl, (onpage_score_penalty_decomposition ex2 ex2op rfl).1, by decide⟩

/-- C5 (confirmed): exactly one title bucket fires for the title rule.
Title length 0 appends exactly the one critical missing-title issue (no
warning, no strength), 1-29 exactly the one too-short warning, 30-60
exactly the one good-length strength (no issue), above 60 exactly the
one too-long warning; and title length 45 yields exactly one strength
entry that mentions "45" and leaves the issue list untouched. -/
theorem title_length_buckets (f : OnPageData) (st : AnalyzerState) (t : ℤ)
    (ht : f.title_length.getD 0 = t) :
    (t = 0 → titleRule f st = addIssue st (mkIssue "On-Page SEO" "critical"
        "Missing title tag" "Add a descriptive title tag (50-60 characters)"))
    ∧ (1 ≤ t ∧ t ≤ 29 → titleRule f st = addIssue st (mkIssue "On-Page SEO" "warning"
        s!"Title tag too short: {t} characters"
        "Expand title to 50-60 characters for better SEO"))
    ∧ (30 ≤ t ∧ t ≤ 60 →
        titleRule f st = addStrength st s!"Good title length: {t} characters")
    ∧ (61 ≤ t → titleRule f st = addIssue st (mkIssue "On-Page SEO" "warning"
        s!"Title tag too long: {t} characters"
        "Shorten title to 50-60 characters to avoid truncation"))
    ∧ (t = 45 →
        (titleRule f st).strengths = st.strengths ++ ["Good title length: 45 characters"]
        ∧ mentions "Good title length: 45 characters" "45"
        ∧ (titleRule f st).issues = st.issues) := by
  have hrule : titleRule f st =
      (if t = 0 then
        addIssue st (mkIssue "On-Page SEO" "critical" "Missing title tag"
          "Add a descriptive title tag (50-60 characters)")
      else if t < 30 then
        addIssue st (mkIssue "On-Page SEO" "warning"
          s!"Title tag too short: {t} characters"
          "Expand title to 50-60 characters for better SEO")
      else if t > 60 then
        addIssue st (mkIssue "On-Page SEO" "warning"
          s!"Title tag too long: {t} characters"
          "Shorten title to 50-60 characters to avoid truncation")
      else addStrength st s!"Good title length: {t} characters") := by
    simp only [titleRule, ht]
  refine ⟨?_, ?_, ?_, ?_, ?_⟩
  · intro h
    rw [hrule, if_pos h]
  · intro h
    rw [hrule, if_neg (by omega), if_pos (by omega)]
  · intro h
    rw [hrule, if_neg (by omega), if_neg (by omega), if_neg (by omega)]
  · intro h
    rw [hrule, if_neg (by omega), if_neg (by omega), if_pos (by omega)]
  · intro h
    subst h
    rw [hrule, if_neg (by omega), if_neg (by omega), if_neg (by omega)]
    refine ⟨?_, ⟨"Good title length: ", " characters", by decide⟩, ?_⟩
    · simp only [addStrength_strengths]
      congr 1
    · simp only [addStrength_issues]

/-- Witness for C5 at a section whose title length is 45: one strength
mentioning "45", no issue. -/
theorem title_length_buckets_witness :
    (titleRule c5f initState).strengths = ["Good title length: 45 characters"]
    ∧ mentions "Good title length: 45 characters" "45"
    ∧ (titleRule c5f initState).issues = [] := by
  have h := (title_length_buckets c5f initState 45 rfl).2.2.2.2 rfl
  exact ⟨h.1, h.2.1, h.2.2⟩

/-- C6 (confirmed): with a positive image count, a missing-alt ratio
above 20 percent appends exactly the one warning issue carrying the
counts (and no opportunity), a ratio in (0, 20 percent] appends exactly
the one opportunity (and no issue), and a ratio of 0 appends exactly the
one strength; with zero images the rule changes nothing.  The ratio
condition is stated in exact integer form: above 20 percent means
`totalImages < 5 * imagesWithoutAlt`. -/
theorem alt_text_buckets (f : OnPageData) (st : AnalyzerState) (ti iwa pct : ℤ)
    (hti : f.total_images.getD 0 = ti) (hiwa : f.images_without_alt.getD 0 = iwa)
    (hpct : fmt0 (((iwa : ℚ) / (ti : ℚ)) * 100) = pct) :
    (0 < ti ∧ ti < 5 * iwa → imageRule f st
        = addIssue st (mkIssue "Image Optimization" "warning"
            s!"{iwa}/{ti} images missing alt text ({pct}%)"
            "Add descriptive alt text to all images for accessibility and SEO"))
    ∧ (0 < ti ∧ 0 < iwa ∧ 5 * iwa ≤ ti →
        imageRule f st = addOpportunity st s!"Add alt text to {iwa} remaining images")
    ∧ (0 < ti ∧ iwa = 0 → imageRule f st = addStrength st "All images have alt text")
    ∧ (ti = 0 → imageRule f st = st) := by
  have hrule : imageRule f st =
      (if ti > 0 ∧ iwa > 0 then
        (if ((iwa : ℚ) / (ti : ℚ)) * 100 > 20 then
          addIssue st (mkIssue "Image Optimization" "warning"
            s!"{iwa}/{ti} images missing alt text ({pct}%)"
            "Add descriptive alt text to all images for accessibility and SEO")
        else addOpportunity st s!"Add alt text to {iwa} remaining images")
      else if ti > 0 then addStrength st "All images have alt text"
      else st) := by
    simp only [imageRule, hti, hiwa, hpct]
  refine ⟨?_, ?_, ?_, ?_⟩
  · rintro ⟨h1, h2⟩
    have h3 : 0 < iwa := by omega
    rw [hrule, if_pos ⟨h1, h3⟩, if_pos ((percentage_gt_20_iff ti iwa h1).mpr h2)]
  · rintro ⟨h1, h2, h3⟩
    rw [hrule, if_pos ⟨h1, h2⟩, if_neg ?_]
    rw [percentage_gt_20_iff ti iwa h1]
    omega
  · rintro ⟨h1, h2⟩
    rw [hrule, if_neg (by omega), if_pos h1]
  · intro h
    rw [hrule, if_neg (by omega), if_neg (by omega)]

unseal Rat.add Rat.mul Rat.sub Rat.inv Rat.ofScientific in
/-- Witness for C6: 3 of 10 images missing alt text produces the warning
issue, 1 of 10 produces the opportunity. -/
theorem alt_text_buckets_witness :
    (imageRule c6f initState = addIssue initState (mkIssue "Image Optimization" "warning"
        "3/10 images missing alt text (30%)"
        "Add descriptive alt text to all images for accessibility and SEO"))
    ∧ imageRule c6g initState
        = addOpportunity initState "Add alt text to 1 remaining images" := by
  constructor
  · have h := (alt_text_buckets c6f initState 10 3 30 rfl rfl (by decide)).1
      ⟨by decide, by decide⟩
    rw [h]
    decide
  · have h := (alt_text_buckets c6g initState 10 1 10 rfl rfl (by decide)).2.1
      ⟨by decide, by decide, by decide⟩
    rw [h]
    decide

/-- C7 (confirmed): a section carrying an error marker short-circuits
its analysis: the resulting state is exactly the input state plus one
warning issue (so no strength, no opportunity, no score write and no
further rule runs), and in the full run the category scores that the
section would have set stay absent and read as 0 in the aggregation. -/
theorem error_section_short_circuit (e : String) (st : AnalyzerState) (d : SEOData) :
    (analyze_page_speed (.err e) st
        = addIssue st (mkErrIssue "Performance" "Could not retrieve PageSpeed data" e))
    ∧ (analyze_on_page_seo (.err e) st
        = addIssue st (mkErrIssue "On-Page SEO" "Could not analyze on-page elements" e))
    ∧ (analyze_technical_seo (.err e) st
        = addIssue st (mkErrIssue "Technical SEO" "Could not analyze technical aspects" e))
    ∧ (∀ c m, (mkErrIssue c m e).severity = "warning")
    ∧ (d.page_speed = .err e →
        (analyze_all d).category_scores.performance = none
        ∧ (analyze_all d).category_scores.technical_seo = none
        ∧ (analyze_all d).category_scores.performance.getD 0 = 0
        ∧ (analyze_all d).category_scores.technical_seo.getD 0 = 0)
    ∧ (d.on_page_seo = .err e →
        (analyze_all d).category_scores.on_page_seo = none
        ∧ (analyze_all d).category_scores.on_page_seo.getD 0 = 0) := by
  refine ⟨rfl, rfl, rfl, fun c m => rfl, ?_, ?_⟩
  · intro h
    rw [analyze_all_category_scores]
    refine ⟨by simp [categoryPerformance, h], by simp [categoryTechnicalSeo, h],
      by simp [categoryPerformance, h], by simp [categoryTechnicalSeo, h]⟩
  · intro h
    rw [analyze_all_category_scores]
    exact ⟨by simp [categoryOnPageSeo, h], by simp [categoryOnPageSeo, h]⟩

/-- Witness for C7 at `cex1`, whose on-page section errored: its
category score stays absent and the section contributes exactly the one
warning issue. -/
theorem error_section_short_circuit_witness :
    cex1.on_page_seo = .err "scrape failed"
    ∧ (analyze_all cex1).category_scores.on_page_seo = none
    ∧ analyze_on_page_seo (.err "scrape failed") initState
        = addIssue initState
            (mkErrIssue "On-Page SEO" "Could not analyze on-page elements" "scrape failed") := by
  have h := error_section_short_circuit "scrape failed" initState cex1
  exact ⟨rfl, (h.2.2.2.2.2 rfl).1, h.2.1⟩

/-- C8 (confirmed): scoring is total over records with absent fields:
filling every absent field with its zero-value default (0, false, empty)
leaves the entire analysis result unchanged, and the rule containing the
missing-alt division is the identity whenever the image count is not
positive, so the division only happens with a positive divisor. -/
theorem scoring_total_with_defaults (d : SEOData) (f : OnPageData) (st : AnalyzerState) :
    analyze_all (fillData d) = analyze_all d
    ∧ (f.total_images.getD 0 ≤ 0 → imageRule f st = st) := by
  refine ⟨analyze_all_fill d, ?_⟩
  intro h
  simp only [imageRule]
  rw [if_neg (by omega), if_neg (by omega)]

/-- Witness for C8 at the record whose sections are present but empty. -/
theorem scoring_total_with_defaults_witness :
    analyze_all (fillData dMissing) = analyze_all dMissing
    ∧ imageRule {} initState = initState := by
  have h := scoring_total_with_defaults dMissing {} initState
  exact ⟨h.1, h.2 (by decide)⟩

/-- C9 (confirmed): scoring is deterministic: two runs of the engine on
the same input record produce identical category scores, overall score,
issues, strengths and opportunities (the analysis result minus the
wall-clock timestamp, which is outside the model). -/
theorem scoring_deterministic (d1 d2 : SEOData) (h : d1 = d2) :
    analyze_all d1 = analyze_all d2 := by rw [h]

/-- Witness for C9 at the end-to-end example input. -/
theorem scoring_deterministic_witness : analyze_all ex2 = analyze_all ex2 :=
  scoring_deterministic ex2 ex2 rfl

/-- C10 (confirmed): with zero total images but a positive
missing-alt count, the 10-point alt penalty still applies (the condition
holds vacuously against 20 percent of zero), the image rule emits no
issue, opportunity or strength, and the on-page category score of the
full run is 100 minus the penalties with the alt penalty fixed at 10. -/
theorem zero_images_alt_penalty (d : SEOData) (f : OnPageData) (st : AnalyzerState)
    (hti : f.total_images.getD 0 = 0) (hiwa : 0 < f.images_without_alt.getD 0) :
    altPenalty (f.total_images.getD 0) (f.images_without_alt.getD 0) = 10
    ∧ imageRule f st = st
    ∧ (d.on_page_seo = .fields f →
        (analyze_all d).category_scores.on_page_seo
          = some ((max 0 (100 - onPagePenalties f) : ℤ) : ℚ)
        ∧ onPagePenalties f
            = titlePenalty (f.title_length.getD 0)
              + metaPenalty (f.meta_description_length.getD 0)
              + h1Penalty (f.h1_count.getD 0) + 10
              + wordPenalty (f.word_count.getD 0)) := by
  have halt : altPenalty (f.total_images.getD 0) (f.images_without_alt.getD 0) = 10 := by
    unfold altPenalty
    rw [if_pos ((altPenalty_cond_iff _ _).mpr (by omega))]
  refine ⟨halt, ?_, ?_⟩
  · simp only [imageRule]
    rw [if_neg (by omega), if_neg (by omega)]
  · intro h
    constructor
    · rw [analyze_all_category_scores]
      simp [categoryOnPageSeo, h, onPageScore_eq_penalties]
    · unfold onPagePenalties
      rw [halt]

unseal Rat.add Rat.mul Rat.sub Rat.inv Rat.ofScientific in
/-- Witness for C10 at a section with 0 images and 2 missing alt texts:
the alt penalty is 10 and the total penalty is 80 (20 title, 20 meta, 15
H1, 10 alt, 15 word count), although the rule emitted nothing. -/
theorem zero_images_alt_penalty_witness :
    altPenalty (c10f.total_images.getD 0) (c10f.images_without_alt.getD 0) = 10
    ∧ imageRule c10f initState = initState
    ∧ (analyze_all c10d).category_scores.on_page_seo
        = some ((max 0 (100 - onPagePenalties c10f) : ℤ) : ℚ)
    ∧ onPagePenalties c10f = 80 := by
  have h := zero_images_alt_penalty c10d c10f initState (by decide) (by decide)
  exact ⟨h.1, h.2.1, (h.2.2 rfl).1, by decide⟩

end SEO
